import Mathlib

/-!
Verification of the AstraSync Python SDK core: agent-type detection
(`astrasync/utils/detector.py`), normalization (same file), trust scoring
(`astrasync/utils/trust_score.py`) and the API client's registration call
(`astrasync/utils/api.py`), shallowly embedded in Lean.

Python dictionaries are modelled as association lists of string keys and
dynamic values (`PyVal`); dictionary reads go through a `Getter`
(key to optional value), matching the fact that the Python code only reads
its input through `in`, `[]` and `.get`.  Operations that can raise a
`TypeError` or `AttributeError` in Python (iteration, `len`, slicing,
`.get` on a non-dict) return `Except PyErr`.
-/

namespace AstraSync

/-- Python dynamic value: the subset of Python data reachable in the
detector / normalizer / scorer (None, bool, int, str, list, dict with
string keys). -/
inductive PyVal where
  | none
  | bool (b : Bool)
  | int (n : Int)
  | str (s : String)
  | list (xs : List PyVal)
  | dict (kvs : List (String × PyVal))
deriving Repr, Inhabited

/-- Python truthiness (`bool(v)`): None and False are falsy, numbers are
truthy unless zero, strings/lists/dicts are truthy unless empty. -/
def PyVal.truthy : PyVal → Bool
  | PyVal.none => false
  | PyVal.bool b => b
  | PyVal.int n => n != 0
  | PyVal.str s => !(s == "")
  | PyVal.list xs => !xs.isEmpty
  | PyVal.dict kvs => !kvs.isEmpty

/-- `isinstance(v, str)`. -/
def PyVal.isStr : PyVal → Bool
  | PyVal.str _ => true
  | _ => false

/-- Python `v == lit` where `lit` is a string literal: equal strings are
equal, any non-string compares unequal (no error). -/
def PyVal.eqStr : PyVal → String → Bool
  | PyVal.str s, t => s == t
  | _, _ => false

/-- Python `v in [lit, ...]` over a list of string literals. -/
def PyVal.inStrList (v : PyVal) (ss : List String) : Bool :=
  ss.any (fun s => v.eqStr s)

/-- First-match lookup in an association list: the semantics of reading a
key of a Python dict. -/
def lookup? : List (String × PyVal) → String → Option PyVal
  | [], _ => Option.none
  | (k', v) :: rest, k => if k' == k then Option.some v else lookup? rest k

mutual
/-- Python `repr(v)`, used by `str()` on containers.  String quoting is
modelled as a plain single-quote wrap (escape sequences inside the string
are not modelled; no claim depends on them). -/
def PyVal.pyRepr : PyVal → String
  | PyVal.none => "None"
  | PyVal.bool b => if b then "True" else "False"
  | PyVal.int n => toString n
  | PyVal.str s => "\x27" ++ s ++ "\x27"
  | PyVal.list xs => "[" ++ PyVal.pyReprList xs ++ "]"
  | PyVal.dict kvs => "\x7b" ++ PyVal.pyReprKVs kvs ++ "\x7d"

/-- Comma-separated reprs of the elements of a list. -/
def PyVal.pyReprList : List PyVal → String
  | [] => ""
  | [v] => PyVal.pyRepr v
  | v :: rest => PyVal.pyRepr v ++ ", " ++ PyVal.pyReprList rest

/-- Comma-separated `'key': repr(value)` entries of a dict. -/
def PyVal.pyReprKVs : List (String × PyVal) → String
  | [] => ""
  | [(k, v)] => "\x27" ++ k ++ "\x27: " ++ PyVal.pyRepr v
  | (k, v) :: rest => "\x27" ++ k ++ "\x27: " ++ PyVal.pyRepr v ++ ", " ++ PyVal.pyReprKVs rest
end

/-- Python `str(v)`: the string itself for strings, `repr` otherwise
(f-string interpolation uses this). -/
def PyVal.pyStr : PyVal → String
  | PyVal.str s => s
  | v => PyVal.pyRepr v

/-- Python errors the embedded code can raise. -/
inductive PyErr where
  | typeError
  | attributeError
deriving Repr, DecidableEq

/-- Python iteration `for x in v`: lists yield elements, strings yield
one-character strings, dicts yield their keys; other values raise
`TypeError`. -/
def PyVal.iter? : PyVal → Option (List PyVal)
  | PyVal.list xs => Option.some xs
  | PyVal.str s => Option.some (s.toList.map (fun c => PyVal.str (String.singleton c)))
  | PyVal.dict kvs => Option.some (kvs.map (fun kv => PyVal.str kv.1))
  | _ => Option.none

/-- Python `v.get(k, dflt)`: defined for dicts, `AttributeError` on any
other value. -/
def PyVal.dictGet : PyVal → String → PyVal → Except PyErr PyVal
  | PyVal.dict kvs, k, dflt => Except.ok ((lookup? kvs k).getD dflt)
  | _, _, _ => Except.error PyErr.attributeError

/-- Python slicing `v[:n]`: defined for strings and lists, `TypeError`
otherwise. -/
def PyVal.slice : PyVal → Nat → Except PyErr PyVal
  | PyVal.str s, n => Except.ok (PyVal.str (s.take n))
  | PyVal.list xs, n => Except.ok (PyVal.list (xs.take n))
  | _, _ => Except.error PyErr.typeError

/-- Python `len(v)`: defined for strings, lists and dicts, `TypeError`
otherwise. -/
def PyVal.len? : PyVal → Option Nat
  | PyVal.str s => Option.some s.length
  | PyVal.list xs => Option.some xs.length
  | PyVal.dict kvs => Option.some kvs.length
  | _ => Option.none

/-- A Python dict (`agent_data` when it is a mapping). -/
abbrev AgentData : Type := List (String × PyVal)

/-- Abstract read-only view of a dict: every access the detector and
normalizer perform on `agent_data` is a key read. -/
abbrev Getter : Type := String → Option PyVal

/-- The getter of a concrete dict. -/
def AgentData.toGetter (d : AgentData) : Getter := fun k => lookup? d k

/-- `agent_data.get(k, dflt)`. -/
def Getter.get (g : Getter) (k : String) (dflt : PyVal) : PyVal :=
  (g k).getD dflt

/-- `agent_data.get(k)` (default `None`). -/
def Getter.getN (g : Getter) (k : String) : PyVal :=
  (g k).getD PyVal.none

/-- `k in agent_data`. -/
def Getter.hasKey (g : Getter) (k : String) : Bool :=
  (g k).isSome

/-- Raw input to detection/normalization: a mapping, or an object
instance carrying a class name, a module name, and an optional
`__dict__` of fields (detector.py lines 16-39, 112-117). -/
inductive AgentInput where
  | dict (d : AgentData)
  | obj (className moduleName : String) (fields : Option AgentData)

/-- The fields the normalizer works on after the object-to-dict
conversion of detector.py lines 112-117: a mapping is used as is, an
object's `__dict__` is used when present, otherwise the empty dict. -/
def inputFields : AgentInput → AgentData
  | AgentInput.dict d => d
  | AgentInput.obj _ _ (Option.some f) => f
  | AgentInput.obj _ _ Option.none => []

/-- Substring test on character lists (Python `needle in hay` for
strings). -/
def listContainsSub (hay needle : List Char) : Bool :=
  match hay with
  | [] => needle.isEmpty
  | c :: rest => needle.isPrefixOf (c :: rest) || listContainsSub rest needle

/-- Python `needle in hay` for strings. -/
def strContains (hay needle : String) : Bool :=
  listContainsSub hay.toList needle.toList

/-- Python `str(type(x))` for an object with the given class and module
names: `<class 'module.Class'>`. -/
def strType (className moduleName : String) : String :=
  "<class \x27" ++ moduleName ++ "." ++ className ++ "\x27>"

/-- Dict-path of `detect_agent_type` (detector.py lines 41-98): the
ordered cascade of structural predicates, first match wins. -/
def detectDict (g : Getter) : String :=
  -- Google ADK: both schemas present (line 42)
  if g.hasKey "input_schema" && g.hasKey "output_schema" then "google-adk"
  -- Google ADK: explicit agent_type with a known value (line 45)
  else if g.hasKey "agent_type"
          && (g.getN "agent_type").inStrList ["llm", "sequential", "parallel", "loop"] then
    "google-adk"
  -- Google ADK: serialized config dict with an ADK marker key (lines 49-52)
  else if (match g "config" with
           | Option.some (PyVal.dict config) =>
               ["google.adk", "ADKAgent", "agent_type"].any (fun k => (lookup? config k).isSome)
           | _ => false) then
    "google-adk"
  -- MCP: protocol tag (line 55)
  else if g.hasKey "protocol" && (g.getN "protocol").eqStr "ai-agent" then "mcp"
  -- MCP: skills list whose entries are all dicts with a name (lines 58-60)
  else if (match g "skills" with
           | Option.some (PyVal.list skills) =>
               skills.all (fun s => match s with
                 | PyVal.dict kv => (lookup? kv "name").isSome
                 | _ => false)
           | _ => false) then
    "mcp"
  -- LangChain: llm with tools or memory, no conflicting agent_type (lines 64-69)
  else if g.hasKey "llm" && (g.hasKey "tools" || g.hasKey "memory")
          && (match g "agent_type" with
              | Option.none => true
              | Option.some v =>
                  !(v.inStrList ["External", "llm", "sequential", "parallel", "loop"])) then
    "langchain"
  -- Letta: dict-valued memory with no inner type, or top-level type 'agent' (lines 72-75)
  else if (match g "memory" with
           | Option.some (PyVal.dict m) =>
               !(lookup? m "type").isSome || (g.getN "type").eqStr "agent"
           | _ => false) then
    "letta"
  -- Letta: type 'agent' with memory (line 77)
  else if g.hasKey "type" && (g.getN "type").eqStr "agent" && g.hasKey "memory" then "letta"
  -- ACP (line 81)
  else if g.hasKey "agentId" && g.hasKey "authentication" then "acp"
  -- OpenAI Assistants (lines 85-87)
  else if g.hasKey "model" && g.hasKey "instructions"
          && (match g "tools" with
              | Option.some (PyVal.list _) => true
              | _ => false) then
    "openai"
  -- AutoGPT (line 90)
  else if ["ai_name", "ai_role", "ai_goals"].all (fun k => g.hasKey k) then "autogpt"
  -- Agentforce (lines 94-96)
  else if g.hasKey "agent_type" && (g.getN "agent_type").eqStr "External"
          && g.hasKey "agent_template_type" then
    "agentforce"
  else "unknown"

/-- `detect_agent_type` (detector.py lines 7-98): object instances are
first checked by class and module name, then fall back to the dict
predicates over their `__dict__` (or `unknown` when there is none). -/
def detect_agent_type : AgentInput → String
  | AgentInput.dict d => detectDict d.toGetter
  | AgentInput.obj cls mod fields =>
    -- direct ADK instances (line 23)
    if strContains mod "google.adk" || cls == "Agent" || cls == "ADKAgent" then "google-adk"
    -- LangChain by module name (line 27)
    else if strContains mod.toLower "langchain" then "langchain"
    -- LangChain by class-name pattern plus type string (lines 31-33)
    else if (strContains cls "Agent" || strContains cls "Chain" || strContains cls "Executor")
            && strContains (strType cls mod) "langchain" then
      "langchain"
    else match fields with
      | Option.some d => detectDict d.toGetter
      | Option.none => "unknown"

/-- The normalized agent record built by `normalize_agent_data`
(detector.py lines 120-127): the base keys are always present, the three
trailing fields are only set by the google-adk branch (lines 184-186).
Field values are dynamic (`PyVal`) because the Python code copies input
values of any type into them. -/
structure NormalizedRecord where
  agentType : String
  version : PyVal
  name : PyVal
  description : PyVal
  capabilities : PyVal
  owner : PyVal
  framework : Option String := Option.none
  orchestration_capable : Option Bool := Option.none
  structured_output : Option Bool := Option.none
deriving Repr

/-- The normalized record as the Python dict it really is, in insertion
order (base keys first, then the google-adk extras). -/
def NormalizedRecord.toDict (r : NormalizedRecord) : AgentData :=
  [("agentType", PyVal.str r.agentType), ("version", r.version), ("name", r.name),
   ("description", r.description), ("capabilities", r.capabilities), ("owner", r.owner)]
  ++ (match r.framework with
      | Option.some f => [("framework", PyVal.str f)]
      | Option.none => [])
  ++ (match r.orchestration_capable with
      | Option.some b => [("orchestration_capable", PyVal.bool b)]
      | Option.none => [])
  ++ (match r.structured_output with
      | Option.some b => [("structured_output", PyVal.bool b)]
      | Option.none => [])

/-- First fixup of the final validation pass (detector.py lines 211-212):
an empty name is replaced by one synthesized from the type tag. -/
def validateName (agentType : String) (r : NormalizedRecord) : NormalizedRecord :=
  if r.name.truthy then r
  else { r with name := PyVal.str ("Unnamed " ++ agentType ++ " Agent") }

/-- Second fixup (detector.py lines 214-215): an empty description is
replaced by a generic sentence naming the type. -/
def validateDescription (agentType : String) (r : NormalizedRecord) : NormalizedRecord :=
  if r.description.truthy then r
  else { r with description := PyVal.str ("A " ++ agentType ++ " agent") }

/-- Third fixup (detector.py lines 218-219): an empty owner becomes
`"Unknown"`. -/
def validateOwner (r : NormalizedRecord) : NormalizedRecord :=
  if r.owner.truthy then r else { r with owner := PyVal.str "Unknown" }

/-- Final validation pass of `normalize_agent_data` (detector.py lines
210-219): the three fixups in source order. -/
def finalValidate (agentType : String) (r : NormalizedRecord) : NormalizedRecord :=
  validateOwner (validateDescription agentType (validateName agentType r))

/-- MCP capabilities (detector.py line 133):
`[skill.get('name', '') for skill in agent_data.get('skills', [])]`. -/
def mcpCapabilities (skillsVal : PyVal) : Except PyErr PyVal :=
  match skillsVal.iter? with
  | Option.none => Except.error PyErr.typeError
  | Option.some skills => do
      let caps ← skills.mapM (fun skill => skill.dictGet "name" (PyVal.str ""))
      Except.ok (PyVal.list caps)

/-- One OpenAI tool capability (detector.py lines 153-157): dict tools
contribute their type, anything else its `str()`. -/
def openaiToolCap (tool : PyVal) : PyVal :=
  match tool with
  | PyVal.dict kvs => (lookup? kvs "type").getD (PyVal.str "")
  | v => PyVal.str v.pyStr

/-- One Google-ADK tool capability (detector.py lines 173-177): dict tools
contribute `tool.get('type', tool.get('name', ''))`, anything else its
`str()`. -/
def adkToolCap (tool : PyVal) : PyVal :=
  match tool with
  | PyVal.dict kvs => (lookup? kvs "type").getD ((lookup? kvs "name").getD (PyVal.str ""))
  | v => PyVal.str v.pyStr

/-- Iterate a tools value and map each entry to a capability; iteration of
a non-iterable value raises `TypeError` just as the Python `for` does. -/
def toolCaps (capOf : PyVal → PyVal) (toolsVal : PyVal) : Except PyErr (List PyVal) :=
  match toolsVal.iter? with
  | Option.none => Except.error PyErr.typeError
  | Option.some tools => Except.ok (tools.map capOf)

/-- Agentforce topic capabilities (detector.py line 195):
`[topic.get('label', '') for topic in topics if isinstance(topic, dict)]`. -/
def agentforceTopicCaps (topicsVal : PyVal) : Except PyErr (List PyVal) :=
  match topicsVal.iter? with
  | Option.none => Except.error PyErr.typeError
  | Option.some topics =>
      Except.ok (topics.filterMap (fun t => match t with
        | PyVal.dict kvs => Option.some ((lookup? kvs "label").getD (PyVal.str ""))
        | _ => Option.none))

/-- ACP capabilities (detector.py line 145):
`list(agent_data.get('capabilities', {}).keys())`; `.keys()` on a
non-dict raises `AttributeError`. -/
def acpCapabilities (capsVal : PyVal) : Except PyErr PyVal :=
  match capsVal with
  | PyVal.dict kvs => Except.ok (PyVal.list (kvs.map (fun kv => PyVal.str kv.1)))
  | _ => Except.error PyErr.attributeError

/-- Modelled from the spec: the langchain adapter's `normalize_agent_data`
lives in `astrasync/adapters/langchain.py`, which the repository imports
(detector.py line 200, adapters/__init__.py) but whose source is not
under src/.  Per section 4.2 of the spec, each type's rule extracts
`name`, `description`, `capabilities` and `owner` from the input and the
mandatory uniform post-pass then enforces non-empty `name`, `description`
and `owner` (else synthesized from the type tag / `"Unknown"`);
`version` defaults to `"1.0.0"`. -/
def langchain_normalize (g : Getter) : NormalizedRecord :=
  finalValidate "langchain"
    { agentType := "langchain"
      version := g.get "version" (PyVal.str "1.0.0")
      name := g.get "name" (PyVal.str "")
      description := g.get "description" (PyVal.str "")
      capabilities := g.get "capabilities" (PyVal.list [])
      owner := g.get "owner" (PyVal.str "") }

/-- Type-specific extraction of `normalize_agent_data` (detector.py lines
119-208), everything except the langchain early return and the final
validation pass. -/
def extractByType (agentType : String) (g : Getter) : Except PyErr NormalizedRecord :=
  -- base normalized structure (lines 120-127)
  let base : NormalizedRecord :=
    { agentType := agentType
      version := g.get "version" (PyVal.str "1.0.0")
      name := PyVal.str ""
      description := PyVal.str ""
      capabilities := PyVal.list []
      owner := PyVal.str "" }
  if agentType == "mcp" then do
    let caps ← mcpCapabilities (g.get "skills" (PyVal.list []))
    Except.ok { base with
      name := g.get "name" (PyVal.str "Unnamed MCP Agent")
      description := g.get "description" (PyVal.str "MCP protocol agent")
      capabilities := caps
      owner := g.get "owner" (g.get "developer" (PyVal.str "")) }
  else if agentType == "letta" then
    Except.ok { base with
      name := g.get "name" (PyVal.str "Unnamed Letta Agent")
      description := g.get "description" (PyVal.str "Memory-augmented agent")
      capabilities := PyVal.list [PyVal.str "memory", PyVal.str "recall",
                                  PyVal.str "persistent_context"]
      owner := g.get "owner" (g.get "creator" (PyVal.str "")) }
  else if agentType == "acp" then do
    let caps ← acpCapabilities (g.get "capabilities" (PyVal.dict []))
    Except.ok { base with
      name := g.get "name"
        (PyVal.str ("ACP Agent " ++ (g.get "agentId" (PyVal.str "Unknown")).pyStr))
      description := g.get "description"
        (PyVal.str "IBM Agent Communication Protocol agent")
      capabilities := caps
      owner := g.get "owner" (g.get "organization" (PyVal.str "")) }
  else if agentType == "openai" then do
    let desc ← (g.get "description" (g.get "instructions" (PyVal.str "OpenAI Assistant"))).slice 200
    let caps ← toolCaps openaiToolCap (g.get "tools" (PyVal.list []))
    Except.ok { base with
      name := g.get "name" (PyVal.str "Unnamed OpenAI Assistant")
      description := desc
      capabilities := PyVal.list caps
      owner := g.get "owner" (g.get "created_by" (PyVal.str "")) }
  else if agentType == "autogpt" then do
    let caps ← (g.get "ai_goals" (PyVal.list [])).slice 5
    Except.ok { base with
      name := g.get "ai_name" (PyVal.str "Unnamed AutoGPT Agent")
      description := g.get "ai_role" (PyVal.str "AutoGPT autonomous agent")
      capabilities := caps
      owner := g.get "owner" (g.get "user" (PyVal.str "")) }
  else if agentType == "google-adk" then do
    let caps ← toolCaps adkToolCap (g.get "tools" (PyVal.list []))
    let caps := if (g.getN "output_schema").truthy || (g.getN "structured_output").truthy
                then caps ++ [PyVal.str "deterministic_output"] else caps
    Except.ok { base with
      name := g.get "name" (PyVal.str "Unnamed ADK Agent")
      description := g.get "description"
        (PyVal.str "Multi-agent orchestration powered by Google ADK")
      capabilities := PyVal.list caps
      framework := Option.some "google-adk"
      orchestration_capable :=
        Option.some ((g.getN "agent_type").inStrList ["sequential", "parallel", "loop"])
      structured_output := Option.some (g.getN "output_schema").truthy
      owner := g.get "owner" (g.get "developer" (PyVal.str "ADK Developer")) }
  else if agentType == "agentforce" then do
    let caps ← agentforceTopicCaps (g.get "topics" (PyVal.list []))
    Except.ok { base with
      name := g.get "label" (PyVal.str "Unnamed Agentforce Agent")
      description := g.get "description"
        (PyVal.str ((g.get "agent_template_type" (PyVal.str "Salesforce")).pyStr ++ " agent"))
      capabilities := PyVal.list caps
      owner := g.get "owner" (g.get "organization" (PyVal.str "Salesforce Org")) }
  else
    -- unknown type: generic extraction (lines 203-208)
    Except.ok { base with
      name := g.get "name" (g.get "agent_name" (PyVal.str "Unnamed Agent"))
      description := g.get "description" (PyVal.str "Unknown agent type")
      capabilities := g.get "capabilities" (g.get "features" (PyVal.list []))
      owner := g.get "owner" (g.get "creator" (PyVal.str "")) }

/-- `normalize_agent_data` (detector.py lines 101-221): detect the type,
view the input as a dict, run the type-specific extraction; the langchain
branch returns the adapter's result directly (line 201), every other
branch goes through the final validation pass (lines 210-219). -/
def normalize_agent_data (input : AgentInput) : Except PyErr NormalizedRecord :=
  let agentType := detect_agent_type input
  let g : Getter := (inputFields input).toGetter
  if agentType == "langchain" then Except.ok (langchain_normalize g)
  else do
    let r ← extractByType agentType g
    Except.ok (finalValidate agentType r)

/-- Name-quality bonus of `calculate_trust_score` (trust_score.py lines
7-9): `+5` when the name is truthy and not the literal placeholder
`'Unnamed Agent'`. -/
def trust_name_bonus (g : Getter) : Int :=
  if (g.getN "name").truthy && !((g.getN "name").eqStr "Unnamed Agent") then 5 else 0

/-- Description-quality bonus (trust_score.py lines 11-16): `+5` past 50
characters and another `+5` past 100; `len` of a non-sized value raises
`TypeError`. -/
def trust_desc_bonus (g : Getter) : Except PyErr Int :=
  match (g.get "description" (PyVal.str "")).len? with
  | Option.none => Except.error PyErr.typeError
  | Option.some l => Except.ok ((if l > 50 then 5 else 0) + (if l > 100 then 5 else 0))

/-- Capabilities bonus (trust_score.py lines 18-23): `+5` when non-empty
and another `+5` past 3 entries. -/
def trust_cap_bonus (g : Getter) : Except PyErr Int :=
  match (g.get "capabilities" (PyVal.list [])).len? with
  | Option.none => Except.error PyErr.typeError
  | Option.some l => Except.ok ((if l > 0 then 5 else 0) + (if l > 3 then 5 else 0))

/-- Version bonus (trust_score.py lines 25-27): `+5` when the version
value is truthy. -/
def trust_version_bonus (g : Getter) : Int :=
  if (g.getN "version").truthy then 5 else 0

/-- `calculate_trust_score` (trust_score.py lines 3-29): base 70 plus the
four bonuses, capped at 95; the description `len` is evaluated before the
capabilities `len`, so its error is raised first. -/
def calculate_trust_score (d : AgentData) : Except PyErr Int :=
  let g := d.toGetter
  match trust_desc_bonus g, trust_cap_bonus g with
  | Except.ok db, Except.ok cb =>
      Except.ok (min (70 + trust_name_bonus g + db + cb + trust_version_bonus g) 95)
  | Except.error e, _ => Except.error e
  | Except.ok _, Except.error e => Except.error e

/-- Outcome of the underlying `session.post` call in `APIClient.register`
(api.py lines 27-31): either an HTTP response (status code, body text and
its parsed JSON), or a `requests.exceptions.RequestException`. -/
inductive PostResult where
  | success (status_code : Nat) (text : String) (jsonBody : PyVal)
  | requestException (msg : String)

/-- The two error kinds `APIClient.register` can raise
(astrasync/exceptions.py): `APIError` carries the status code and
response body, `RegistrationError` wraps a network failure. -/
inductive APIClientError where
  | apiError (message : String) (status_code : Nat) (response_body : String)
  | registrationError (message : String)
deriving Repr, DecidableEq

/-- `APIClient.register` (api.py lines 20-44): exactly status 201 is
success and returns the parsed body; any other status raises `APIError`
with that status and body; a `RequestException` from the transport is
re-raised as `RegistrationError`. -/
def APIClient.register (outcome : PostResult) : Except APIClientError PyVal :=
  match outcome with
  | PostResult.success status text body =>
      if status == 201 then Except.ok body
      else Except.error (APIClientError.apiError ("Registration failed: " ++ text) status text)
  | PostResult.requestException e =>
      Except.error (APIClientError.registrationError ("Network error: " ++ e))

/-! ### Helper lemmas -/

lemma truthy_str {s : String} (h : s ≠ "") : (PyVal.str s).truthy = true := by
  simp [PyVal.truthy, h]

lemma ne_of_truthy_str {s : String} (h : (PyVal.str s).truthy = true) : s ≠ "" := by
  simp [PyVal.truthy] at h
  exact h

lemma unnamed_ne_empty (t : String) : ("Unnamed " ++ t ++ " Agent") ≠ "" := by
  intro h
  have h2 := congrArg String.length h
  rw [String.length_append, String.length_append] at h2
  simp only [show ("Unnamed " : String).length = 8 from rfl,
             show (" Agent" : String).length = 6 from rfl,
             show ("" : String).length = 0 from rfl] at h2
  omega

lemma generic_desc_ne_empty (t : String) : ("A " ++ t ++ " agent") ≠ "" := by
  intro h
  have h2 := congrArg String.length h
  rw [String.length_append, String.length_append] at h2
  simp only [show ("A " : String).length = 2 from rfl,
             show (" agent" : String).length = 6 from rfl,
             show ("" : String).length = 0 from rfl] at h2
  omega

lemma validateName_truthy (t : String) (r : NormalizedRecord) :
    (validateName t r).name.truthy = true := by
  unfold validateName
  split_ifs with h
  · exact h
  · exact truthy_str (unnamed_ne_empty t)

lemma validateName_description (t : String) (r : NormalizedRecord) :
    (validateName t r).description = r.description := by
  unfold validateName
  split_ifs <;> rfl

lemma validateName_owner (t : String) (r : NormalizedRecord) :
    (validateName t r).owner = r.owner := by
  unfold validateName
  split_ifs <;> rfl

lemma validateName_agentType (t : String) (r : NormalizedRecord) :
    (validateName t r).agentType = r.agentType := by
  unfold validateName
  split_ifs <;> rfl

lemma validateDescription_truthy (t : String) (r : NormalizedRecord) :
    (validateDescription t r).description.truthy = true := by
  unfold validateDescription
  split_ifs with h
  · exact h
  · exact truthy_str (generic_desc_ne_empty t)

lemma validateDescription_name (t : String) (r : NormalizedRecord) :
    (validateDescription t r).name = r.name := by
  unfold validateDescription
  split_ifs <;> rfl

lemma validateDescription_owner (t : String) (r : NormalizedRecord) :
    (validateDescription t r).owner = r.owner := by
  unfold validateDescription
  split_ifs <;> rfl

lemma validateDescription_agentType (t : String) (r : NormalizedRecord) :
    (validateDescription t r).agentType = r.agentType := by
  unfold validateDescription
  split_ifs <;> rfl

lemma validateOwner_truthy (r : NormalizedRecord) :
    (validateOwner r).owner.truthy = true := by
  unfold validateOwner
  split_ifs with h
  · exact h
  · exact truthy_str (by decide)

lemma validateOwner_name (r : NormalizedRecord) : (validateOwner r).name = r.name := by
  unfold validateOwner
  split_ifs <;> rfl

lemma validateOwner_description (r : NormalizedRecord) :
    (validateOwner r).description = r.description := by
  unfold validateOwner
  split_ifs <;> rfl

lemma validateOwner_agentType (r : NormalizedRecord) :
    (validateOwner r).agentType = r.agentType := by
  unfold validateOwner
  split_ifs <;> rfl

lemma finalValidate_truthy (t : String) (r : NormalizedRecord) :
    (finalValidate t r).name.truthy = true
      ∧ (finalValidate t r).description.truthy = true
      ∧ (finalValidate t r).owner.truthy = true := by
  unfold finalValidate
  refine ⟨?_, ?_, validateOwner_truthy _⟩
  · rw [validateOwner_name, validateDescription_name]
    exact validateName_truthy t r
  · rw [validateOwner_description]
    exact validateDescription_truthy t _

lemma finalValidate_agentType (t : String) (r : NormalizedRecord) :
    (finalValidate t r).agentType = r.agentType := by
  unfold finalValidate
  rw [validateOwner_agentType, validateDescription_agentType, validateName_agentType]

lemma except_ok_bind {α β γ : Type} (a : α) (f : α → Except γ β) :
    (Except.ok a : Except γ α) >>= f = f a := rfl

lemma trust_name_bonus_range (g : Getter) :
    0 ≤ trust_name_bonus g ∧ trust_name_bonus g ≤ 5 := by
  unfold trust_name_bonus
  split_ifs <;> norm_num

lemma trust_version_bonus_range (g : Getter) :
    0 ≤ trust_version_bonus g ∧ trust_version_bonus g ≤ 5 := by
  unfold trust_version_bonus
  split_ifs <;> norm_num

lemma trust_desc_bonus_range {g : Getter} {x : Int}
    (h : trust_desc_bonus g = Except.ok x) : 0 ≤ x ∧ x ≤ 10 := by
  unfold trust_desc_bonus at h
  split at h
  · cases h
  · have hx : (if _ > 50 then (5 : Int) else 0) + (if _ > 100 then 5 else 0) = x :=
      Except.ok.inj h
    split_ifs at hx <;> omega

lemma trust_cap_bonus_range {g : Getter} {x : Int}
    (h : trust_cap_bonus g = Except.ok x) : 0 ≤ x ∧ x ≤ 10 := by
  unfold trust_cap_bonus at h
  split at h
  · cases h
  · have hx : (if _ > 0 then (5 : Int) else 0) + (if _ > 3 then 5 else 0) = x :=
      Except.ok.inj h
    split_ifs at hx <;> omega

lemma calculate_trust_score_eq (d : AgentData) {db cb : Int}
    (hdb : trust_desc_bonus d.toGetter = Except.ok db)
    (hcb : trust_cap_bonus d.toGetter = Except.ok cb) :
    calculate_trust_score d =
      Except.ok (min (70 + trust_name_bonus d.toGetter + db + cb
                        + trust_version_bonus d.toGetter) 95) := by
  simp only [calculate_trust_score, hdb, hcb]

lemma calculate_trust_score_inv {d : AgentData} {r : Int}
    (h : calculate_trust_score d = Except.ok r) :
    ∃ db cb, trust_desc_bonus d.toGetter = Except.ok db
      ∧ trust_cap_bonus d.toGetter = Except.ok cb
      ∧ r = min (70 + trust_name_bonus d.toGetter + db + cb
                   + trust_version_bonus d.toGetter) 95 := by
  simp only [calculate_trust_score] at h
  split at h
  · exact ⟨_, _, by assumption, by assumption, (Except.ok.inj h).symm⟩
  · cases h
  · cases h

lemma calculate_trust_score_bounds {d : AgentData} {r : Int}
    (h : calculate_trust_score d = Except.ok r) : 70 ≤ r ∧ r ≤ 95 := by
  obtain ⟨db, cb, hdb, hcb, hr⟩ := calculate_trust_score_inv h
  obtain ⟨h1, h2⟩ := trust_desc_bonus_range hdb
  obtain ⟨h3, h4⟩ := trust_cap_bonus_range hcb
  obtain ⟨h5, h6⟩ := trust_name_bonus_range d.toGetter
  obtain ⟨h7, h8⟩ := trust_version_bonus_range d.toGetter
  subst hr
  constructor
  · exact le_min (by omega) (by norm_num)
  · exact min_le_right _ _

/-! ### Claim theorems: trust score -/

/-- Claim C4: a record with a 150-character description, 5 capabilities, a
truthy version and a non-empty, non-placeholder name scores exactly 95,
and no record ever scores above 95. -/
theorem trust_score_full_marks :
    (∀ (d : AgentData) (n s : String) (cs : List PyVal) (v : PyVal),
        lookup? d "name" = Option.some (PyVal.str n) → n ≠ "" → n ≠ "Unnamed Agent" →
        lookup? d "description" = Option.some (PyVal.str s) → s.length = 150 →
        lookup? d "capabilities" = Option.some (PyVal.list cs) → cs.length = 5 →
        lookup? d "version" = Option.some v → v.truthy = true →
        calculate_trust_score d = Except.ok 95)
    ∧ (∀ (d : AgentData) (r : Int), calculate_trust_score d = Except.ok r → r ≤ 95) := by
  constructor
  · intro d n s cs v hn hne hnp hd hdl hc hcl hv hvt
    have hdb : trust_desc_bonus d.toGetter = Except.ok 10 := by
      simp [trust_desc_bonus, Getter.get, AgentData.toGetter, hd, PyVal.len?, hdl]
    have hcb : trust_cap_bonus d.toGetter = Except.ok 10 := by
      simp [trust_cap_bonus, Getter.get, AgentData.toGetter, hc, PyVal.len?, hcl]
    have h1 : (n == "") = false := beq_eq_false_iff_ne.mpr hne
    have h2 : (n == "Unnamed Agent") = false := beq_eq_false_iff_ne.mpr hnp
    have hnb : trust_name_bonus d.toGetter = 5 := by
      simp [trust_name_bonus, Getter.getN, AgentData.toGetter, hn, PyVal.truthy,
            PyVal.eqStr, h1, h2]
    have hvb : trust_version_bonus d.toGetter = 5 := by
      simp [trust_version_bonus, Getter.getN, AgentData.toGetter, hv, hvt]
    rw [calculate_trust_score_eq d hdb hcb, hnb, hvb]
    norm_num
  · exact fun _ _ h => (calculate_trust_score_bounds h).2

/-- Witness for C4: a concrete record hitting every bonus scores 95. -/
theorem trust_score_full_marks_witness :
    calculate_trust_score
      [("name", PyVal.str "Weather Agent"),
       ("description", PyVal.str (String.mk (List.replicate 150 'a'))),
       ("capabilities", PyVal.list [PyVal.str "a", PyVal.str "b", PyVal.str "c",
                                    PyVal.str "d", PyVal.str "e"]),
       ("version", PyVal.str "1.0.0")] = Except.ok 95 :=
  trust_score_full_marks.1 _ "Weather Agent" (String.mk (List.replicate 150 'a'))
    [PyVal.str "a", PyVal.str "b", PyVal.str "c", PyVal.str "d", PyVal.str "e"]
    (PyVal.str "1.0.0") rfl (by decide) (by decide) rfl rfl rfl rfl rfl rfl

/-- Claim C5: the trust score is monotonic non-decreasing in description
length (all other score-relevant fields equal), and never exceeds 95. -/
theorem trust_score_monotone_desc :
    (∀ (d1 d2 : AgentData) (s1 s2 : String) (r1 r2 : Int),
        lookup? d1 "description" = Option.some (PyVal.str s1) →
        lookup? d2 "description" = Option.some (PyVal.str s2) →
        s1.length ≤ s2.length →
        lookup? d1 "name" = lookup? d2 "name" →
        lookup? d1 "capabilities" = lookup? d2 "capabilities" →
        lookup? d1 "version" = lookup? d2 "version" →
        calculate_trust_score d1 = Except.ok r1 →
        calculate_trust_score d2 = Except.ok r2 → r1 ≤ r2)
    ∧ (∀ (d : AgentData) (r : Int), calculate_trust_score d = Except.ok r → r ≤ 95) := by
  constructor
  · intro d1 d2 s1 s2 r1 r2 hd1 hd2 hlen hnm hcap hver h1 h2
    have hdb1 : trust_desc_bonus d1.toGetter =
        Except.ok ((if s1.length > 50 then (5 : Int) else 0)
                     + (if s1.length > 100 then 5 else 0)) := by
      simp [trust_desc_bonus, Getter.get, AgentData.toGetter, hd1, PyVal.len?]
    have hdb2 : trust_desc_bonus d2.toGetter =
        Except.ok ((if s2.length > 50 then (5 : Int) else 0)
                     + (if s2.length > 100 then 5 else 0)) := by
      simp [trust_desc_bonus, Getter.get, AgentData.toGetter, hd2, PyVal.len?]
    have hnb : trust_name_bonus d1.toGetter = trust_name_bonus d2.toGetter := by
      simp only [trust_name_bonus, Getter.getN, AgentData.toGetter, hnm]
    have hvb : trust_version_bonus d1.toGetter = trust_version_bonus d2.toGetter := by
      simp only [trust_version_bonus, Getter.getN, AgentData.toGetter, hver]
    have hcb : trust_cap_bonus d1.toGetter = trust_cap_bonus d2.toGetter := by
      simp only [trust_cap_bonus, Getter.get, AgentData.toGetter, hcap]
    obtain ⟨db1, cb1, hdb1', hcb1', hr1⟩ := calculate_trust_score_inv h1
    obtain ⟨db2, cb2, hdb2', hcb2', hr2⟩ := calculate_trust_score_inv h2
    rw [hdb1] at hdb1'
    rw [hdb2] at hdb2'
    have hdbv1 := (Except.ok.inj hdb1').symm
    have hdbv2 := (Except.ok.inj hdb2').symm
    rw [hcb] at hcb1'
    rw [hcb2'] at hcb1'
    have hcbv := Except.ok.inj hcb1'
    subst hr1 hr2 hdbv1 hdbv2 hcbv
    rw [hnb, hvb]
    refine min_le_min (by split_ifs <;> omega) le_rfl
  · exact fun _ _ h => (calculate_trust_score_bounds h).2

/-- Witness for C5: growing a 30-character description to 60 characters
moves the score from 75 to 80. -/
theorem trust_score_monotone_desc_witness :
    calculate_trust_score [("description", PyVal.str (String.mk (List.replicate 30 'c'))),
                           ("version", PyVal.str "1.0.0")] = Except.ok 75
    ∧ calculate_trust_score [("description", PyVal.str (String.mk (List.replicate 60 'c'))),
                             ("version", PyVal.str "1.0.0")] = Except.ok 80
    ∧ (75 : Int) ≤ 80 :=
  ⟨rfl, rfl,
   trust_score_monotone_desc.1
     [("description", PyVal.str (String.mk (List.replicate 30 'c'))),
      ("version", PyVal.str "1.0.0")]
     [("description", PyVal.str (String.mk (List.replicate 60 'c'))),
      ("version", PyVal.str "1.0.0")]
     (String.mk (List.replicate 30 'c')) (String.mk (List.replicate 60 'c'))
     75 80 rfl rfl (by decide) rfl rfl rfl rfl rfl⟩

/-- Claim C9: every score the function returns lies in [70, 95], and both
endpoints are attained (the empty record scores 70, a fully filled record
scores 95), a strictly tighter range than the 0 to 95 of the data model. -/
theorem trust_score_attainable_range :
    (∀ (d : AgentData) (r : Int), calculate_trust_score d = Except.ok r → 70 ≤ r ∧ r ≤ 95)
    ∧ calculate_trust_score [] = Except.ok 70
    ∧ calculate_trust_score
        [("name", PyVal.str "SupportBot"),
         ("description", PyVal.str (String.mk (List.replicate 101 'b'))),
         ("capabilities", PyVal.list [PyVal.str "v", PyVal.str "w", PyVal.str "x",
                                      PyVal.str "y"]),
         ("version", PyVal.str "2.0")] = Except.ok 95 :=
  ⟨fun _ _ h => calculate_trust_score_bounds h, rfl, rfl⟩

/-- Witness for C9: the range theorem applied to the empty record. -/
theorem trust_score_attainable_range_witness : (70 : Int) ≤ 70 ∧ (70 : Int) ≤ 95 :=
  trust_score_attainable_range.1 [] 70 rfl

/-- Claim C10: the +5 name bonus goes to every record whose name is a
non-empty string other than the literal `'Unnamed Agent'`; in particular
the placeholder `'Unnamed mcp Agent'` synthesized by normalization for an
empty input name still earns it (score 80 rather than 75). -/
theorem trust_name_bonus_awarded :
    (∀ (d : AgentData) (s : String),
        lookup? d "name" = Option.some (PyVal.str s) → s ≠ "" → s ≠ "Unnamed Agent" →
        trust_name_bonus d.toGetter = 5)
    ∧ (normalize_agent_data
         (AgentInput.dict [("protocol", PyVal.str "ai-agent"), ("name", PyVal.str "")])).map
        (fun r => (r.name, trust_name_bonus r.toDict.toGetter, calculate_trust_score r.toDict))
      = Except.ok (PyVal.str "Unnamed mcp Agent", 5, Except.ok 80) := by
  constructor
  · intro d s hn hne hnp
    have h1 : (s == "") = false := beq_eq_false_iff_ne.mpr hne
    have h2 : (s == "Unnamed Agent") = false := beq_eq_false_iff_ne.mpr hnp
    simp [trust_name_bonus, Getter.getN, AgentData.toGetter, hn, PyVal.truthy,
          PyVal.eqStr, h1, h2]
  · rfl

/-- Witness for C10: the bonus on the synthesized mcp placeholder name. -/
theorem trust_name_bonus_awarded_witness :
    trust_name_bonus (AgentData.toGetter [("name", PyVal.str "Unnamed mcp Agent")]) = 5 :=
  trust_name_bonus_awarded.1 _ "Unnamed mcp Agent" rfl (by decide) (by decide)

/-! ### Claim theorems: detection -/

/-- Claim C2: any mapping carrying both `input_schema` and
`output_schema` keys is detected as google-adk, whatever else it
contains — the schema-pair predicate is the first rule of the cascade. -/
theorem detect_schema_pair_is_google_adk :
    ∀ (d : AgentData),
      (lookup? d "input_schema").isSome = true →
      (lookup? d "output_schema").isSome = true →
      detect_agent_type (AgentInput.dict d) = "google-adk" := by
  intro d h1 h2
  show detectDict d.toGetter = "google-adk"
  unfold detectDict
  simp [Getter.hasKey, AgentData.toGetter, h1, h2]

/-- Witness for C2: a mapping that simultaneously matches the mcp,
langchain, letta, openai and autogpt predicates still resolves to
google-adk because of the schema pair. -/
theorem detect_schema_pair_is_google_adk_witness :
    detect_agent_type (AgentInput.dict
      [("input_schema", PyVal.dict []), ("output_schema", PyVal.dict []),
       ("protocol", PyVal.str "ai-agent"),
       ("skills", PyVal.list [PyVal.dict [("name", PyVal.str "s")]]),
       ("llm", PyVal.str "gpt"), ("memory", PyVal.dict []),
       ("model", PyVal.str "m"), ("instructions", PyVal.str "i"),
       ("tools", PyVal.list []),
       ("ai_name", PyVal.str "a"), ("ai_role", PyVal.str "r"),
       ("ai_goals", PyVal.list [])]) = "google-adk" :=
  detect_schema_pair_is_google_adk _ rfl rfl

/-- Claim C3: the protocol-tagged example is detected as mcp and its
normalized capabilities contain "search"; in general any mapping with
`protocol == "ai-agent"` and a skills list of named entries, without the
three higher-priority google-adk markers, is detected as mcp. -/
theorem detect_mcp_protocol_skills :
    (detect_agent_type (AgentInput.dict
        [("protocol", PyVal.str "ai-agent"),
         ("skills", PyVal.list [PyVal.dict [("name", PyVal.str "search")]]),
         ("name", PyVal.str "X")]) = "mcp"
      ∧ (normalize_agent_data (AgentInput.dict
          [("protocol", PyVal.str "ai-agent"),
           ("skills", PyVal.list [PyVal.dict [("name", PyVal.str "search")]]),
           ("name", PyVal.str "X")])).map (fun r => r.capabilities)
        = Except.ok (PyVal.list [PyVal.str "search"]))
    ∧ (∀ (d : AgentData) (skills : List PyVal),
        lookup? d "protocol" = Option.some (PyVal.str "ai-agent") →
        lookup? d "skills" = Option.some (PyVal.list skills) →
        skills.all (fun s => match s with
          | PyVal.dict kv => (lookup? kv "name").isSome
          | _ => false) = true →
        ¬((lookup? d "input_schema").isSome = true
            ∧ (lookup? d "output_schema").isSome = true) →
        (∀ v, lookup? d "agent_type" = Option.some v →
            v.inStrList ["llm", "sequential", "parallel", "loop"] = false) →
        (∀ kvs, lookup? d "config" = Option.some (PyVal.dict kvs) →
            (["google.adk", "ADKAgent", "agent_type"].any
              (fun k => (lookup? kvs k).isSome)) = false) →
        detect_agent_type (AgentInput.dict d) = "mcp") := by
  refine ⟨⟨rfl, rfl⟩, ?_⟩
  intro d skills hprot hskills hnamed hno hat5 hcf6
  show detectDict d.toGetter = "mcp"
  unfold detectDict
  have c1 : (Getter.hasKey d.toGetter "input_schema"
              && Getter.hasKey d.toGetter "output_schema") = false := by
    cases hin : (lookup? d "input_schema").isSome with
    | false => simp [Getter.hasKey, AgentData.toGetter, hin]
    | true =>
        cases hout : (lookup? d "output_schema").isSome with
        | false => simp [Getter.hasKey, AgentData.toGetter, hout]
        | true => exact absurd ⟨hin, hout⟩ hno
  have c2 : (Getter.hasKey d.toGetter "agent_type"
              && (Getter.getN d.toGetter "agent_type").inStrList
                   ["llm", "sequential", "parallel", "loop"]) = false := by
    cases hat : lookup? d "agent_type" with
    | none => simp [Getter.hasKey, AgentData.toGetter, hat]
    | some v => simp [Getter.getN, AgentData.toGetter, hat, hat5 v hat]
  have c3 : (match d.toGetter "config" with
             | Option.some (PyVal.dict config) =>
                 ["google.adk", "ADKAgent", "agent_type"].any
                   (fun k => (lookup? config k).isSome)
             | _ => false) = false := by
    show (match lookup? d "config" with
          | Option.some (PyVal.dict config) =>
              ["google.adk", "ADKAgent", "agent_type"].any
                (fun k => (lookup? config k).isSome)
          | _ => false) = false
    cases hcf : lookup? d "config" with
    | none => rfl
    | some v =>
        cases v with
        | dict kvs => exact hcf6 kvs hcf
        | none => rfl
        | bool b => rfl
        | int n => rfl
        | str s => rfl
        | list xs => rfl
  have c4 : (Getter.hasKey d.toGetter "protocol"
              && (Getter.getN d.toGetter "protocol").eqStr "ai-agent") = true := by
    simp [Getter.hasKey, Getter.getN, AgentData.toGetter, hprot, PyVal.eqStr]
  rw [c1, c2, c3, c4]
  simp

/-- Witness for C3: the scenario-A input satisfies every hypothesis of the
general mcp rule. -/
theorem detect_mcp_protocol_skills_witness :
    detect_agent_type (AgentInput.dict
      [("protocol", PyVal.str "ai-agent"),
       ("skills", PyVal.list [PyVal.dict [("name", PyVal.str "search")]]),
       ("name", PyVal.str "X")]) = "mcp" :=
  detect_mcp_protocol_skills.2
    [("protocol", PyVal.str "ai-agent"),
     ("skills", PyVal.list [PyVal.dict [("name", PyVal.str "search")]]),
     ("name", PyVal.str "X")]
    [PyVal.dict [("name", PyVal.str "search")]]
    rfl rfl rfl (by decide)
    (fun v h => Option.noConfusion h) (fun kvs h => Option.noConfusion h)

/-! ### Claim theorems: API client -/

/-- Claim C7: `APIClient.register` treats exactly status 201 as success
and returns the parsed body; any other status (200 included) raises
`APIError` carrying that status and body; a transport-level
`RequestException` raises the distinct `RegistrationError`; no retry or
conversion happens in between. -/
theorem register_status_discipline :
    (∀ (status : Nat) (text : String) (body : PyVal), status = 201 →
        APIClient.register (PostResult.success status text body) = Except.ok body)
    ∧ (∀ (status : Nat) (text : String) (body : PyVal), status ≠ 201 →
        APIClient.register (PostResult.success status text body)
          = Except.error (APIClientError.apiError ("Registration failed: " ++ text)
              status text))
    ∧ (∀ (msg : String),
        APIClient.register (PostResult.requestException msg)
          = Except.error (APIClientError.registrationError ("Network error: " ++ msg))) := by
  refine ⟨?_, ?_, fun msg => rfl⟩
  · intro status text body h
    subst h
    rfl
  · intro status text body h
    simp [APIClient.register, h]

/-- Witness for C7: 201 succeeds, 200 is an `APIError` despite looking
successful, and a network failure is a `RegistrationError`. -/
theorem register_status_discipline_witness :
    APIClient.register (PostResult.success 201 "created"
        (PyVal.dict [("agentId", PyVal.str "TEMP-001")]))
      = Except.ok (PyVal.dict [("agentId", PyVal.str "TEMP-001")])
    ∧ APIClient.register (PostResult.success 200 "ok-but-not-created" (PyVal.dict []))
      = Except.error (APIClientError.apiError
          ("Registration failed: " ++ "ok-but-not-created") 200 "ok-but-not-created")
    ∧ APIClient.register (PostResult.requestException "connection timed out")
      = Except.error (APIClientError.registrationError
          ("Network error: " ++ "connection timed out")) :=
  ⟨register_status_discipline.1 201 "created" _ rfl,
   register_status_discipline.2.1 200 "ok-but-not-created" _ (by decide),
   register_status_discipline.2.2 "connection timed out"⟩

/-! ### Claim theorems: normalization -/

/-- Claim C8: detection and normalization of a mapping depend only on
the key-value content of the mapping (its lookup function), so equal
inputs give identical outputs; the embedding is a pure function of the
input, matching the code, which only reads `agent_data`. -/
theorem normalize_deterministic_extensional :
    ∀ (d1 d2 : AgentData), (∀ k, lookup? d1 k = lookup? d2 k) →
      detect_agent_type (AgentInput.dict d1) = detect_agent_type (AgentInput.dict d2)
        ∧ normalize_agent_data (AgentInput.dict d1)
            = normalize_agent_data (AgentInput.dict d2) := by
  intro d1 d2 h
  have hg : AgentData.toGetter d1 = AgentData.toGetter d2 := funext h
  constructor
  · show detectDict d1.toGetter = detectDict d2.toGetter
    rw [hg]
  · unfold normalize_agent_data
    simp only [detect_agent_type, inputFields]
    rw [hg]

/-- Witness for C8: two different association lists with the same lookup
function (one has a shadowed duplicate key) detect and normalize
identically. -/
theorem normalize_deterministic_extensional_witness :
    detect_agent_type (AgentInput.dict [("name", PyVal.str "A"), ("name", PyVal.str "B")])
      = detect_agent_type (AgentInput.dict [("name", PyVal.str "A")])
    ∧ normalize_agent_data (AgentInput.dict [("name", PyVal.str "A"), ("name", PyVal.str "B")])
      = normalize_agent_data (AgentInput.dict [("name", PyVal.str "A")]) :=
  normalize_deterministic_extensional _ _ (by
    intro k
    by_cases hk : "name" = k
    · subst hk; rfl
    · simp [lookup?, beq_eq_false_iff_ne.mpr hk])

/-- Claim C1 counterexample: for the input `{'owner': 5}` normalization
returns, but the output owner is the integer 5 — truthy, yet not a
(non-empty) string as the claim demands. -/
theorem normalize_nonstring_owner_counterexample :
    normalize_agent_data (AgentInput.dict [("owner", PyVal.int 5)])
      = Except.ok { agentType := "unknown", version := PyVal.str "1.0.0",
                    name := PyVal.str "Unnamed Agent",
                    description := PyVal.str "Unknown agent type",
                    capabilities := PyVal.list [], owner := PyVal.int 5 }
    ∧ PyVal.isStr (PyVal.int 5) = false := ⟨rfl, rfl⟩

/-- Claim C1 (amended): whenever normalization returns, the name,
description and owner of the result are truthy (non-empty in Python's
sense), and whenever such a field is a string it is a non-empty string;
for the empty mapping the owner is `"Unknown"` and the name is the
`"Unnamed"`-prefixed default. -/
theorem normalize_fields_truthy :
    (∀ (input : AgentInput) (r : NormalizedRecord),
        normalize_agent_data input = Except.ok r →
        (r.name.truthy = true ∧ r.description.truthy = true ∧ r.owner.truthy = true)
        ∧ (∀ s, r.name = PyVal.str s → s ≠ "")
        ∧ (∀ s, r.description = PyVal.str s → s ≠ "")
        ∧ (∀ s, r.owner = PyVal.str s → s ≠ ""))
    ∧ (normalize_agent_data (AgentInput.dict [])).map (fun r => (r.name, r.owner))
        = Except.ok (PyVal.str "Unnamed Agent", PyVal.str "Unknown") := by
  constructor
  · intro input r h
    have hr : r.name.truthy = true ∧ r.description.truthy = true
        ∧ r.owner.truthy = true := by
      simp only [normalize_agent_data] at h
      split at h
      · obtain rfl := Except.ok.inj h
        exact finalValidate_truthy _ _
      · cases hE : extractByType (detect_agent_type input)
            ((inputFields input).toGetter) with
        | error e =>
            rw [hE] at h
            exact Except.noConfusion h
        | ok r0 =>
            rw [hE] at h
            obtain rfl := Except.ok.inj h
            exact finalValidate_truthy _ _
    refine ⟨hr, ?_, ?_, ?_⟩
    · intro s hs
      exact ne_of_truthy_str (hs ▸ hr.1)
    · intro s hs
      exact ne_of_truthy_str (hs ▸ hr.2.1)
    · intro s hs
      exact ne_of_truthy_str (hs ▸ hr.2.2)
  · rfl

/-- Witness for C1: the truthiness theorem applied to the input
`{'owner': 5}` and its concrete normalization result. -/
theorem normalize_fields_truthy_witness :
    (PyVal.str "Unnamed Agent").truthy = true
      ∧ (PyVal.str "Unknown agent type").truthy = true
      ∧ (PyVal.int 5).truthy = true := by
  have h := normalize_fields_truthy.1 (AgentInput.dict [("owner", PyVal.int 5)])
    { agentType := "unknown", version := PyVal.str "1.0.0",
      name := PyVal.str "Unnamed Agent", description := PyVal.str "Unknown agent type",
      capabilities := PyVal.list [], owner := PyVal.int 5 } rfl
  exact ⟨h.1.1, h.1.2.1, h.1.2.2⟩

/-- Claim C6 counterexample: the mapping
`{'protocol': 'ai-agent', 'skills': 5}` is detected as mcp, and
normalization then iterates the integer skills value and raises
`TypeError` instead of returning normally. -/
theorem normalize_typeerror_counterexample :
    normalize_agent_data (AgentInput.dict
      [("protocol", PyVal.str "ai-agent"), ("skills", PyVal.int 5)])
      = Except.error PyErr.typeError := rfl

/-- Unknown-type extraction is total: the generic branch only reads
fields. -/
lemma extractByType_unknown (g : Getter) :
    extractByType "unknown" g = Except.ok
      { agentType := "unknown"
        version := g.get "version" (PyVal.str "1.0.0")
        name := g.get "name" (g.get "agent_name" (PyVal.str "Unnamed Agent"))
        description := g.get "description" (PyVal.str "Unknown agent type")
        capabilities := g.get "capabilities" (g.get "features" (PyVal.list []))
        owner := g.get "owner" (g.get "creator" (PyVal.str "")) } := rfl

/-- Claim C6 (amended): an input matching no structural predicate is not
an error — it resolves to the `"unknown"` tag and normalization returns
normally through the generic extraction rule. -/
theorem detect_unknown_normalize_ok :
    ∀ (input : AgentInput), detect_agent_type input = "unknown" →
      (normalize_agent_data input).map NormalizedRecord.agentType
        = Except.ok "unknown" := by
  intro input h
  simp [normalize_agent_data, h, extractByType_unknown, finalValidate_agentType,
        Except.map, except_ok_bind]

/-- Witness for C6: a mapping with only unrecognized keys normalizes to an
`"unknown"`-tagged record. -/
theorem detect_unknown_normalize_ok_witness :
    (normalize_agent_data (AgentInput.dict [("foo", PyVal.int 1)])).map
      NormalizedRecord.agentType = Except.ok "unknown" :=
  detect_unknown_normalize_ok _ rfl

end AstraSync
